import Mathlib

/-!
Shallow embedding of src/main.py: a FastAPI service that wires an agent,
a knowledge base and a relational store together and exposes three routes
(POST /loadknowledge, GET /health, GET /events).  Module-level startup
(environment reading, the API-key check, constructor calls, CORS) is
modelled as an explicit initialization function over an environment map;
each route handler is modelled as a function over the external state it
touches, returning its HTTP outcome together with a trace of the external
calls it performed.
-/

namespace SwimBench

/-- The process environment: a map from variable names to optional values,
as read by os.getenv. -/
def Env : Type := String → Option String

/-- os.getenv(key): returns the value or None. -/
def getenv (env : Env) (key : String) : Option String := env key

/-- os.getenv(key, default): returns the value, or the default only when
the variable is unset. -/
def getenvD (env : Env) (key dflt : String) : String := (env key).getD dflt

/-- Python truthiness of an optional string: None and the empty string are
falsy, every other string is truthy.  Mirrors the test `if not OPENAI_API_KEY`. -/
def truthy : Option String → Bool
  | none => false
  | some s => !(s = "")

/-- Configuration record built by the PostgresDb constructor call
(main.py lines 42 to 46). -/
structure PostgresDbCfg where
  db_url : Option String
  id : String
  knowledge_table : String
deriving DecidableEq

/-- Configuration record built by the PgVector constructor call
(main.py lines 48 to 52). -/
structure PgVectorCfg where
  table_name : String
  db_url : Option String
deriving DecidableEq

/-- Configuration record built by the Knowledge constructor call
(main.py lines 55 to 60). -/
structure KnowledgeCfg where
  name : String
  description : String
deriving DecidableEq

/-- Configuration record built by the PostgresTools constructor call
(main.py lines 63 to 70).  Every field is passed straight from os.getenv. -/
structure PostgresToolsCfg where
  host : Option String
  port : Option String
  db_name : Option String
  user : Option String
  password : Option String
  table_schema : String
deriving DecidableEq

/-- CORS middleware configuration (main.py lines 176 to 182). -/
structure CorsCfg where
  allow_origins : List String
  allow_credentials : Bool
  allow_methods : List String
  allow_headers : List String
deriving DecidableEq

/-- A middleware registered on the application. -/
inductive Middleware where
  | cors (cfg : CorsCfg)
deriving DecidableEq

/-- The permissive CORS configuration used in main.py. -/
def corsAll : CorsCfg :=
  { allow_origins := ["*"]
    allow_credentials := true
    allow_methods := ["*"]
    allow_headers := ["*"] }

/-- The state of the module after a successful import of main.py:
the environment-derived globals and the configuration object graph. -/
structure ModuleState where
  OPENAI_API_KEY : Option String
  DATABASE_CONNECTION_STRING : Option String
  ENV : String
  db : PostgresDbCfg
  vector_db : PgVectorCfg
  knowledge : KnowledgeCfg
  postgres_tools : PostgresToolsCfg
  middlewares : List Middleware
deriving DecidableEq

/-- Steps of module initialization, in the order the lines of main.py
execute them. -/
inductive InitStep where
  | readEnvVars
  | raiseValueError (msg : String)
  | constructDb
  | constructVectorDb
  | constructKnowledge
  | constructPostgresTools
  | constructAgent
  | constructAgentOS
  | getApp
  | addCorsMiddleware
deriving DecidableEq

/-- Module initialization of main.py (lines 26 to 182): read the
environment variables, raise ValueError when OPENAI_API_KEY is unset or
empty, otherwise build the configuration object graph, obtain the HTTP
application and add the CORS middleware only when ENV equals
"production".  Returns the resulting module state or the error message
of the raised exception. -/
def moduleInit (env : Env) : Except String ModuleState :=
  let openai_api_key := getenv env "OPENAI_API_KEY"
  let database_connection_string := getenv env "DATABASE_CONNECTION_STRING"
  let database_host := getenv env "DATABASE_HOST"
  let database_port := getenv env "DATABASE_PORT"
  let database_name := getenv env "DATABASE_NAME"
  let database_user := getenv env "DATABASE_USER"
  let database_password := getenv env "DATABASE_PASSWORD"
  let envTag := getenvD env "ENV" "development"
  if truthy openai_api_key = false then
    Except.error "OPENAI_API_KEY not set in .env"
  else
    let db_url := database_connection_string
    let db : PostgresDbCfg :=
      { db_url := db_url, id := "swimbench-db", knowledge_table := "knowledge_contents" }
    let vector_db : PgVectorCfg := { table_name := "vectors", db_url := db_url }
    let knowledge : KnowledgeCfg :=
      { name := "SwimBench AI Knowledge Base"
        description := "Comprehensive swim performance benchmarking knowledge including USA Swimming standards, college recruiting data, and performance analysis" }
    let postgres_tools : PostgresToolsCfg :=
      { host := database_host, port := database_port, db_name := database_name
        user := database_user, password := database_password, table_schema := "ai" }
    Except.ok
      { OPENAI_API_KEY := openai_api_key
        DATABASE_CONNECTION_STRING := database_connection_string
        ENV := envTag
        db := db
        vector_db := vector_db
        knowledge := knowledge
        postgres_tools := postgres_tools
        middlewares := if envTag = "production" then [Middleware.cors corsAll] else [] }

/-- The ordered trace of module-initialization steps for a given
environment: when the key check fails the ValueError is raised right
after the environment variables are read, before any constructor runs
and before the HTTP application is obtained. -/
def initTrace (env : Env) : List InitStep :=
  if truthy (getenv env "OPENAI_API_KEY") = false then
    [InitStep.readEnvVars, InitStep.raiseValueError "OPENAI_API_KEY not set in .env"]
  else
    [InitStep.readEnvVars, InitStep.constructDb, InitStep.constructVectorDb,
     InitStep.constructKnowledge, InitStep.constructPostgresTools,
     InitStep.constructAgent, InitStep.constructAgentOS, InitStep.getApp] ++
    (if getenvD env "ENV" "development" = "production"
      then [InitStep.addCorsMiddleware] else [])

/-- A knowledge item as submitted by knowledge.add_content_async: a name,
a source URL and a metadata mapping. -/
structure Document where
  name : String
  url : String
  metadata : List (String × String)
deriving DecidableEq

/-- The first document loaded by the /loadknowledge handler
(main.py lines 192 to 201). -/
def usaStandardsDoc : Document :=
  { name := "USA Swimming Motivational Time Standards 2024-2028"
    url := "https://websitedevsa.blob.core.windows.net/sitefinity/docs/default-source/timesdocuments/time-standards/2025/2028-motivational-standards-age-group.pdf"
    metadata := [("user_tag", "USA Swimming Standards"), ("content_type", "standards"),
                 ("source", "PDF"), ("year", "2024-2028")] }

/-- The second document loaded by the /loadknowledge handler
(main.py lines 204 to 212). -/
def collegeRecruitingDoc : Document :=
  { name := "College Swimming Recruiting Standards"
    url := "https://www.ncsasports.org/mens-swimming/college-swimming-recruiting-times"
    metadata := [("user_tag", "College Recruiting"), ("content_type", "recruiting"),
                 ("source", "NCSA")] }

/-- An HTTPException as raised by the handlers: a status code and a
detail string. -/
structure HTTPException where
  status_code : Nat
  detail : String
deriving DecidableEq

/-- The success payload returned by the /loadknowledge handler
(main.py lines 216 to 223). -/
structure LoadPayload where
  status : String
  message : String
  loaded_documents : List String
deriving DecidableEq

/-- An operation issued against the external knowledge base. -/
inductive KBOp where
  | clear
  | add (d : Document)
deriving DecidableEq

/-- Outcomes of the awaited external knowledge-base calls: each call
either completes (ok) or raises an exception carrying a message. -/
structure KBOracle where
  clearResult : Except String Unit
  addResult : Document → Except String Unit

/-- FastAPI returns HTTP 200 for a handler that returns a payload and the
status code of the HTTPException the handler raises otherwise. -/
def statusCode {α : Type} : Except HTTPException α → Nat
  | Except.ok _ => 200
  | Except.error e => e.status_code

/-- The POST /loadknowledge handler (main.py lines 184 to 227), over the
outcomes of its external calls and the current knowledge-base contents.
It awaits knowledge.clear, then the two add_content_async calls in
order; on the first exception it aborts and raises HTTPException 500
whose detail is the fixed prefix followed by the exception text.  It
returns the HTTP outcome, the resulting knowledge-base contents (no
rollback is ever performed) and the ordered trace of the knowledge-base
calls it issued. -/
def load_knowledge (o : KBOracle) (kb0 : List Document) :
    Except HTTPException LoadPayload × List Document × List KBOp :=
  match o.clearResult with
  | Except.error e =>
      (Except.error { status_code := 500, detail := "Error loading knowledge: " ++ e },
       kb0, [KBOp.clear])
  | Except.ok _ =>
    match o.addResult usaStandardsDoc with
    | Except.error e =>
        (Except.error { status_code := 500, detail := "Error loading knowledge: " ++ e },
         [], [KBOp.clear, KBOp.add usaStandardsDoc])
    | Except.ok _ =>
      match o.addResult collegeRecruitingDoc with
      | Except.error e =>
          (Except.error { status_code := 500, detail := "Error loading knowledge: " ++ e },
           [usaStandardsDoc],
           [KBOp.clear, KBOp.add usaStandardsDoc, KBOp.add collegeRecruitingDoc])
      | Except.ok _ =>
          (Except.ok
            { status := "success"
              message := "SwimBench knowledge base loaded successfully"
              loaded_documents := ["USA Swimming Standards 2024-2028",
                                   "College Recruiting Standards"] },
           [usaStandardsDoc, collegeRecruitingDoc],
           [KBOp.clear, KBOp.add usaStandardsDoc, KBOp.add collegeRecruitingDoc])

/-- An oracle on which every external knowledge-base call completes. -/
def okOracle : KBOracle :=
  { clearResult := Except.ok (), addResult := fun _ => Except.ok () }

/-- An oracle on which the clear call completes but every add call raises
with the given message. -/
def addFailOracle (msg : String) : KBOracle :=
  { clearResult := Except.ok (), addResult := fun _ => Except.error msg }

/-- An oracle on which the clear call completes, the first add completes
and the second add raises with the given message. -/
def secondAddFailOracle (msg : String) : KBOracle :=
  { clearResult := Except.ok ()
    addResult := fun d => if d = collegeRecruitingDoc then Except.error msg else Except.ok () }

/-- The relational store the service is wired to; the auxiliary GET
handlers never touch it, so its contents are arbitrary named tables. -/
structure RelationalStore where
  tables : List (String × List (List String))

/-- A query issued against the relational store. -/
inductive DbQuery where
  | query (sql : String)
deriving DecidableEq

/-- The payload returned by the /events handler. -/
structure EventsPayload where
  events : List String
deriving DecidableEq

/-- The hardcoded event list of the /events handler body
(main.py lines 243 to 247). -/
def events_list : List String :=
  ["50_freestyle", "100_freestyle", "200_freestyle", "500_freestyle", "1650_freestyle",
   "100_backstroke", "200_backstroke", "100_breaststroke", "200_breaststroke",
   "100_butterfly", "200_butterfly", "200_im", "400_im"]

/-- The body of the try block of the /events handler: a list literal and
a dict construction, neither of which can raise, so the body always
completes with its payload. -/
def events_body : Except String EventsPayload :=
  Except.ok { events := events_list }

set_option linter.unusedVariables false

/-- The GET /events handler (main.py lines 238 to 250), over the state of
the relational store: runs the try body, mapping a raised exception to
HTTPException 500 with the exception text as detail, and issues no query
against the store. -/
def get_available_events (st : RelationalStore) :
    Except HTTPException EventsPayload × List DbQuery :=
  (match events_body with
   | Except.ok v => Except.ok v
   | Except.error e => Except.error { status_code := 500, detail := e },
   [])

/-- A datetime value as produced by datetime.now(). -/
structure DateTime where
  year : Nat
  month : Nat
  day : Nat
  hour : Nat
  minute : Nat
  second : Nat
  microsecond : Nat
deriving DecidableEq

/-- The field ranges a Python datetime object maintains. -/
def DateTime.Valid (t : DateTime) : Prop :=
  t.year < 10000 ∧ 1 ≤ t.month ∧ t.month ≤ 12 ∧ 1 ≤ t.day ∧ t.day ≤ 31 ∧
  t.hour < 24 ∧ t.minute < 60 ∧ t.second < 60 ∧ t.microsecond < 1000000

instance (t : DateTime) : Decidable t.Valid := by
  unfold DateTime.Valid; infer_instance

/-- The character for a single decimal digit. -/
def digitChar (d : Nat) : Char := Char.ofNat (48 + d)

/-- The decimal value of a digit character. -/
def digitVal (c : Char) : Nat := c.toNat - 48

/-- Zero-padded two-digit rendering, as the %02d format does for
arguments below 100. -/
def pad2 (n : Nat) : List Char := [digitChar (n / 10 % 10), digitChar (n % 10)]

/-- Zero-padded four-digit rendering, as the %04d format does for
arguments below 10000. -/
def pad4 (n : Nat) : List Char :=
  [digitChar (n / 1000 % 10), digitChar (n / 100 % 10),
   digitChar (n / 10 % 10), digitChar (n % 10)]

/-- Zero-padded six-digit rendering, as the %06d format does for
arguments below 1000000. -/
def pad6 (n : Nat) : List Char :=
  [digitChar (n / 100000 % 10), digitChar (n / 10000 % 10),
   digitChar (n / 1000 % 10), digitChar (n / 100 % 10),
   digitChar (n / 10 % 10), digitChar (n % 10)]

/-- datetime.isoformat(): YYYY-MM-DDTHH:MM:SS, with a .ffffff fractional
part appended exactly when the microsecond field is nonzero. -/
def DateTime.isoformat (t : DateTime) : String :=
  String.mk
    (pad4 t.year ++ '-' :: pad2 t.month ++ '-' :: pad2 t.day ++
     'T' :: pad2 t.hour ++ ':' :: pad2 t.minute ++ ':' :: pad2 t.second ++
     (if t.microsecond = 0 then [] else '.' :: pad6 t.microsecond))

/-- The value of a digit character, or none when the character is not a
decimal digit. -/
def digit? (c : Char) : Option Nat :=
  if c.isDigit then some (digitVal c) else none

/-- Reads an ISO-format timestamp from a character list: four year
digits, separators, two digits for each other component, and an optional
six-digit fractional part. -/
def readISO : List Char → Option DateTime
  | y3 :: y2 :: y1 :: y0 :: s1 :: mo1 :: mo0 :: s2 :: d1 :: d0 :: s3 ::
    h1 :: h0 :: s4 :: mi1 :: mi0 :: s5 :: se1 :: se0 :: rest =>
    if s1 = '-' ∧ s2 = '-' ∧ s3 = 'T' ∧ s4 = ':' ∧ s5 = ':' then
      match digit? y3, digit? y2, digit? y1, digit? y0, digit? mo1, digit? mo0,
            digit? d1, digit? d0, digit? h1, digit? h0, digit? mi1, digit? mi0,
            digit? se1, digit? se0 with
      | some a3, some a2, some a1, some a0, some b1, some b0, some c1, some c0,
        some e1, some e0, some f1, some f0, some g1, some g0 =>
        let base : DateTime :=
          { year := ((a3 * 10 + a2) * 10 + a1) * 10 + a0
            month := b1 * 10 + b0
            day := c1 * 10 + c0
            hour := e1 * 10 + e0
            minute := f1 * 10 + f0
            second := g1 * 10 + g0
            microsecond := 0 }
        match rest with
        | [] => some base
        | '.' :: u5 :: u4 :: u3 :: u2 :: u1 :: u0 :: [] =>
          match digit? u5, digit? u4, digit? u3, digit? u2, digit? u1, digit? u0 with
          | some v5, some v4, some v3, some v2, some v1, some v0 =>
            some { base with
                     microsecond :=
                       ((((v5 * 10 + v4) * 10 + v3) * 10 + v2) * 10 + v1) * 10 + v0 }
          | _, _, _, _, _, _ => none
        | _ => none
      | _, _, _, _, _, _, _, _, _, _, _, _, _, _ => none
    else none
  | _ => none

/-- Parses an ISO-format timestamp string. -/
def parseISO (s : String) : Option DateTime := readISO s.data

/-- An external dependency a handler could check. -/
inductive DepCall where
  | databaseCheck
  | modelCall
deriving DecidableEq

/-- The payload returned by the /health handler. -/
structure HealthPayload where
  status : String
  service : String
  timestamp : String
deriving DecidableEq

/-- The GET /health handler (main.py lines 229 to 236), over the current
time: returns the fixed status and service name plus the isoformat
rendering of the current time, performing no dependency check. -/
def health_check (now : DateTime) :
    Except HTTPException HealthPayload × List DepCall :=
  (Except.ok
    { status := "healthy"
      service := "SwimBench AI"
      timestamp := now.isoformat },
   [])

theorem digit?_digitChar_mod (n : Nat) : digit? (digitChar (n % 10)) = some (n % 10) := by
  have h : n % 10 < 10 := Nat.mod_lt n (by omega)
  revert h
  generalize n % 10 = d
  intro h
  interval_cases d <;> decide

/-- Reading back the rendering of a valid datetime recovers it: the
timestamp the health endpoint emits is parseable. -/
theorem parseISO_isoformat (t : DateTime) (h : t.Valid) :
    parseISO t.isoformat = some t := by
  obtain ⟨y, mo, da, ho, mi, se, us⟩ := t
  obtain ⟨hy, hm1, hm2, hd1, hd2, hh, hmi, hs, hu⟩ := h
  simp only at hy hm1 hm2 hd1 hd2 hh hmi hs hu
  unfold parseISO DateTime.isoformat
  by_cases hz : us = 0
  · subst hz
    simp only [pad4, pad2, pad6, if_pos rfl, List.cons_append, List.nil_append]
    simp [readISO, digit?_digitChar_mod]
    omega
  · rw [if_neg hz]
    simp only [pad4, pad2, pad6, List.cons_append, List.nil_append]
    simp [readISO, digit?_digitChar_mod]
    omega

/-- C1: for every POST /loadknowledge invocation, if the clear and both
add-content calls complete without raising, the handler returns HTTP 200
with a body whose status field equals "success"; if any of those calls
raises, the handler returns HTTP 500 whose detail contains the message
text of the exception, and no success payload is returned. -/
theorem loadknowledge_success_or_500 (o : KBOracle) (kb0 : List Document) :
    (o.clearResult = Except.ok () → o.addResult usaStandardsDoc = Except.ok () →
      o.addResult collegeRecruitingDoc = Except.ok () →
      statusCode (load_knowledge o kb0).1 = 200 ∧
      ∃ p, (load_knowledge o kb0).1 = Except.ok p ∧ p.status = "success") ∧
    (∀ e : String,
      (o.clearResult = Except.error e ∨
       (o.clearResult = Except.ok () ∧ o.addResult usaStandardsDoc = Except.error e) ∨
       (o.clearResult = Except.ok () ∧ o.addResult usaStandardsDoc = Except.ok () ∧
        o.addResult collegeRecruitingDoc = Except.error e)) →
      (load_knowledge o kb0).1 =
        Except.error { status_code := 500, detail := "Error loading knowledge: " ++ e } ∧
      statusCode (load_knowledge o kb0).1 = 500 ∧
      ∀ p : LoadPayload, (load_knowledge o kb0).1 ≠ Except.ok p) := by
  constructor
  · intro h1 h2 h3
    simp [load_knowledge, h1, h2, h3, statusCode]
  · intro e he
    rcases he with h1 | ⟨h1, h2⟩ | ⟨h1, h2, h3⟩ <;>
      simp [load_knowledge, statusCode, h1] <;> simp_all

theorem loadknowledge_success_or_500_witness :
    (statusCode (load_knowledge okOracle []).1 = 200 ∧
      ∃ p, (load_knowledge okOracle []).1 = Except.ok p ∧ p.status = "success") ∧
    (load_knowledge (addFailOracle "boom") []).1 =
      Except.error { status_code := 500, detail := "Error loading knowledge: " ++ "boom" } := by
  refine ⟨(loadknowledge_success_or_500 okOracle []).1 rfl rfl rfl, ?_⟩
  exact ((loadknowledge_success_or_500 (addFailOracle "boom") []).2 "boom"
    (Or.inr (Or.inl ⟨rfl, rfl⟩))).1

/-- C2: every POST /loadknowledge invocation issues the clear call first
and only then the add calls, in order (its call trace is always a
nonempty prefix of clear, add standards, add recruiting); and the
operation is not atomic: if the clear succeeds and the first add raises
the knowledge base is left empty, and if only the second add raises it
is left holding just the first document — never rolled back to its
prior contents. -/
theorem loadknowledge_sequencing_no_rollback (o : KBOracle) (kb0 : List Document) :
    ((load_knowledge o kb0).2.2 ∈
      [[KBOp.clear], [KBOp.clear, KBOp.add usaStandardsDoc],
       [KBOp.clear, KBOp.add usaStandardsDoc, KBOp.add collegeRecruitingDoc]]) ∧
    ((load_knowledge o kb0).2.2.head? = some KBOp.clear) ∧
    (∀ e : String, o.clearResult = Except.ok () →
      o.addResult usaStandardsDoc = Except.error e →
      (load_knowledge o kb0).2.1 = []) ∧
    (∀ e : String, o.clearResult = Except.ok () →
      o.addResult usaStandardsDoc = Except.ok () →
      o.addResult collegeRecruitingDoc = Except.error e →
      (load_knowledge o kb0).2.1 = [usaStandardsDoc]) := by
  refine ⟨?_, ?_, ?_, ?_⟩
  · rcases hc : o.clearResult with e | u
    · simp [load_knowledge, hc]
    · rcases ha : o.addResult usaStandardsDoc with e | u2
      · simp [load_knowledge, hc, ha]
      · rcases hb : o.addResult collegeRecruitingDoc with e | u3 <;>
          simp [load_knowledge, hc, ha, hb]
  · rcases hc : o.clearResult with e | u
    · simp [load_knowledge, hc]
    · rcases ha : o.addResult usaStandardsDoc with e | u2
      · simp [load_knowledge, hc, ha]
      · rcases hb : o.addResult collegeRecruitingDoc with e | u3 <;>
          simp [load_knowledge, hc, ha, hb]
  · intro e h1 h2
    simp [load_knowledge, h1, h2]
  · intro e h1 h2 h3
    simp [load_knowledge, h1, h2, h3]

theorem loadknowledge_sequencing_no_rollback_witness :
    ((load_knowledge (secondAddFailOracle "boom") [collegeRecruitingDoc]).2.2.head? =
      some KBOp.clear) ∧
    (load_knowledge (secondAddFailOracle "boom") [collegeRecruitingDoc]).2.1 =
      [usaStandardsDoc] := by
  have h := loadknowledge_sequencing_no_rollback (secondAddFailOracle "boom")
    [collegeRecruitingDoc]
  exact ⟨h.2.1, h.2.2.2 "boom" rfl (by simp [secondAddFailOracle, usaStandardsDoc, collegeRecruitingDoc])
    (by simp [secondAddFailOracle])⟩

/-- C3: when OPENAI_API_KEY is unset or empty, module initialization of
main.py raises the descriptive ValueError, produces no module state, and
the application is never obtained, so no server binds. -/
theorem startup_fails_without_key (env : Env)
    (h : getenv env "OPENAI_API_KEY" = none ∨ getenv env "OPENAI_API_KEY" = some "") :
    moduleInit env = Except.error "OPENAI_API_KEY not set in .env" ∧
    InitStep.getApp ∉ initTrace env ∧
    (∀ s : ModuleState, moduleInit env ≠ Except.ok s) := by
  have ht : truthy (getenv env "OPENAI_API_KEY") = false := by
    rcases h with h | h <;> simp [h, truthy]
  refine ⟨?_, ?_, ?_⟩
  · simp [moduleInit, getenv] at ht ⊢
    simp [ht]
  · simp [initTrace, ht]
  · intro s
    simp [moduleInit, getenv] at ht ⊢
    simp [ht]

theorem startup_fails_without_key_witness :
    moduleInit (fun _ => none) = Except.error "OPENAI_API_KEY not set in .env" ∧
    InitStep.getApp ∉ initTrace (fun _ => none) := by
  have h := startup_fails_without_key (fun _ => none) (Or.inl rfl)
  exact ⟨h.1, h.2.1⟩

/-- C4: the GET /events handler returns the same fixed 13-element list of
event names, in the same order, for every state of the relational store,
with HTTP 200, and issues no query against the store. -/
theorem events_fixed_list (st : RelationalStore) :
    get_available_events st = (Except.ok { events := events_list }, []) ∧
    events_list =
      ["50_freestyle", "100_freestyle", "200_freestyle", "500_freestyle", "1650_freestyle",
       "100_backstroke", "200_backstroke", "100_breaststroke", "200_breaststroke",
       "100_butterfly", "200_butterfly", "200_im", "400_im"] ∧
    events_list.length = 13 ∧
    statusCode (get_available_events st).1 = 200 ∧
    (∀ st2 : RelationalStore, get_available_events st = get_available_events st2) := by
  refine ⟨rfl, rfl, rfl, rfl, fun st2 => rfl⟩

/-- C5: the GET /health handler returns HTTP 200 with status field
"healthy", the fixed service name "SwimBench AI" and the isoformat
rendering of the current time, which parses back to that time; it
performs no dependency check. -/
theorem health_fixed_payload (now : DateTime) (h : now.Valid) :
    statusCode (health_check now).1 = 200 ∧
    (∃ p, (health_check now).1 = Except.ok p ∧ p.status = "healthy" ∧
      p.service = "SwimBench AI" ∧ parseISO p.timestamp = some now) ∧
    (health_check now).2 = [] := by
  exact ⟨rfl, ⟨_, rfl, rfl, rfl, parseISO_isoformat now h⟩, rfl⟩

theorem health_fixed_payload_witness :
    statusCode (health_check ⟨2026, 10, 12, 1, 2, 3, 0⟩).1 = 200 ∧
    (∃ p, (health_check ⟨2026, 10, 12, 1, 2, 3, 0⟩).1 = Except.ok p ∧
      p.status = "healthy" ∧ p.service = "SwimBench AI" ∧
      parseISO p.timestamp = some ⟨2026, 10, 12, 1, 2, 3, 0⟩) ∧
    (health_check ⟨2026, 10, 12, 1, 2, 3, 0⟩).2 = [] :=
  health_fixed_payload ⟨2026, 10, 12, 1, 2, 3, 0⟩ (by decide)

/-- C6: whenever the key check passes, module initialization succeeds and
adds the permissive CORS middleware exactly when the ENV variable (with
default "development" when unset) equals "production"; for every other
value no middleware is added. -/
theorem cors_only_in_production (env : Env) (k : String)
    (hk : getenv env "OPENAI_API_KEY" = some k) (hk2 : k ≠ "") :
    ∃ s, moduleInit env = Except.ok s ∧
      s.ENV = getenvD env "ENV" "development" ∧
      (Middleware.cors corsAll ∈ s.middlewares ↔ s.ENV = "production") ∧
      (s.ENV = "production" → s.middlewares = [Middleware.cors corsAll]) ∧
      (s.ENV ≠ "production" → s.middlewares = []) := by
  have ht : truthy (env "OPENAI_API_KEY") = true := by
    rw [getenv] at hk; rw [hk]; simp [truthy, hk2]
  simp only [moduleInit, getenv, getenvD, ht, Bool.true_eq_false, if_false]
  refine ⟨_, rfl, rfl, ?_, ?_, ?_⟩
  · by_cases hp : (env "ENV").getD "development" = "production" <;> simp [hp]
  · intro hp; simp only at hp; simp [hp]
  · intro hp; simp only at hp; simp [hp]

theorem cors_only_in_production_witness :
    (∃ s, moduleInit
        (fun key => if key = "OPENAI_API_KEY" then some "sk-test"
                    else if key = "ENV" then some "production" else none) = Except.ok s ∧
      s.ENV = getenvD
        (fun key => if key = "OPENAI_API_KEY" then some "sk-test"
                    else if key = "ENV" then some "production" else none) "ENV" "development" ∧
      (Middleware.cors corsAll ∈ s.middlewares ↔ s.ENV = "production") ∧
      (s.ENV = "production" → s.middlewares = [Middleware.cors corsAll]) ∧
      (s.ENV ≠ "production" → s.middlewares = [])) :=
  cors_only_in_production _ "sk-test" rfl (by decide)

/-- C7: whenever the key check passes, module initialization succeeds for
every assignment of the non-model environment variables — no local
validation of URL shape, port range or credentials — and the values read
from the environment reach the downstream store constructors unchanged. -/
theorem other_env_vars_passed_through (env : Env) (k : String)
    (hk : getenv env "OPENAI_API_KEY" = some k) (hk2 : k ≠ "") :
    ∃ s, moduleInit env = Except.ok s ∧
      s.db.db_url = getenv env "DATABASE_CONNECTION_STRING" ∧
      s.vector_db.db_url = getenv env "DATABASE_CONNECTION_STRING" ∧
      s.postgres_tools.host = getenv env "DATABASE_HOST" ∧
      s.postgres_tools.port = getenv env "DATABASE_PORT" ∧
      s.postgres_tools.db_name = getenv env "DATABASE_NAME" ∧
      s.postgres_tools.user = getenv env "DATABASE_USER" ∧
      s.postgres_tools.password = getenv env "DATABASE_PASSWORD" ∧
      s.ENV = getenvD env "ENV" "development" := by
  have ht : truthy (env "OPENAI_API_KEY") = true := by
    rw [getenv] at hk; rw [hk]; simp [truthy, hk2]
  simp only [moduleInit, getenv, getenvD, ht, Bool.true_eq_false, if_false]
  exact ⟨_, rfl, rfl, rfl, rfl, rfl, rfl, rfl, rfl, rfl⟩

theorem other_env_vars_passed_through_witness :
    ∃ s, moduleInit
        (fun key => if key = "OPENAI_API_KEY" then some "sk-test"
                    else if key = "DATABASE_PORT" then some "not a port number"
                    else some "::not a url::") = Except.ok s ∧
      s.db.db_url = getenv
        (fun key => if key = "OPENAI_API_KEY" then some "sk-test"
                    else if key = "DATABASE_PORT" then some "not a port number"
                    else some "::not a url::") "DATABASE_CONNECTION_STRING" ∧
      s.vector_db.db_url = getenv
        (fun key => if key = "OPENAI_API_KEY" then some "sk-test"
                    else if key = "DATABASE_PORT" then some "not a port number"
                    else some "::not a url::") "DATABASE_CONNECTION_STRING" ∧
      s.postgres_tools.host = getenv
        (fun key => if key = "OPENAI_API_KEY" then some "sk-test"
                    else if key = "DATABASE_PORT" then some "not a port number"
                    else some "::not a url::") "DATABASE_HOST" ∧
      s.postgres_tools.port = getenv
        (fun key => if key = "OPENAI_API_KEY" then some "sk-test"
                    else if key = "DATABASE_PORT" then some "not a port number"
                    else some "::not a url::") "DATABASE_PORT" ∧
      s.postgres_tools.db_name = getenv
        (fun key => if key = "OPENAI_API_KEY" then some "sk-test"
                    else if key = "DATABASE_PORT" then some "not a port number"
                    else some "::not a url::") "DATABASE_NAME" ∧
      s.postgres_tools.user = getenv
        (fun key => if key = "OPENAI_API_KEY" then some "sk-test"
                    else if key = "DATABASE_PORT" then some "not a port number"
                    else some "::not a url::") "DATABASE_USER" ∧
      s.postgres_tools.password = getenv
        (fun key => if key = "OPENAI_API_KEY" then some "sk-test"
                    else if key = "DATABASE_PORT" then some "not a port number"
                    else some "::not a url::") "DATABASE_PASSWORD" ∧
      s.ENV = getenvD
        (fun key => if key = "OPENAI_API_KEY" then some "sk-test"
                    else if key = "DATABASE_PORT" then some "not a port number"
                    else some "::not a url::") "ENV" "development" :=
  other_env_vars_passed_through _ "sk-test" rfl (by decide)

/-- C8 counterexample: on a run in which every external call completes,
the handler submits the two documents yet the loaded_documents field of
the success payload is not the list of the names it submitted — both
labels are shortened variants of the submitted name fields. -/
theorem loaded_documents_not_submitted_names :
    ∃ p, (load_knowledge okOracle []).1 = Except.ok p ∧
      (load_knowledge okOracle []).2.2 =
        [KBOp.clear, KBOp.add usaStandardsDoc, KBOp.add collegeRecruitingDoc] ∧
      p.loaded_documents ≠ [usaStandardsDoc.name, collegeRecruitingDoc.name] := by
  refine ⟨_, rfl, rfl, ?_⟩
  decide

/-- C8 amended: on success, POST /loadknowledge returns a payload whose
loaded_documents field is the fixed two-element list of labels, one label
per document submitted in that invocation and in submission order; the
labels describe the submitted documents but are not their exact name
fields. -/
theorem loaded_documents_fixed_labels (o : KBOracle) (kb0 : List Document)
    (p : LoadPayload) (h : (load_knowledge o kb0).1 = Except.ok p) :
    p.loaded_documents =
      ["USA Swimming Standards 2024-2028", "College Recruiting Standards"] ∧
    (load_knowledge o kb0).2.2 =
      [KBOp.clear, KBOp.add usaStandardsDoc, KBOp.add collegeRecruitingDoc] ∧
    p.loaded_documents.length = ((load_knowledge o kb0).2.2.filter
      (fun op => match op with | KBOp.add _ => true | KBOp.clear => false)).length := by
  rcases hc : o.clearResult with e | u
  · simp [load_knowledge, hc] at h
  · rcases ha : o.addResult usaStandardsDoc with e | u2
    · simp [load_knowledge, hc, ha] at h
    · rcases hb : o.addResult collegeRecruitingDoc with e | u3
      · simp [load_knowledge, hc, ha, hb] at h
      · simp [load_knowledge, hc, ha, hb] at h ⊢
        simp [← h, List.filter]

theorem loaded_documents_fixed_labels_witness :
    (load_knowledge okOracle []).2.2 =
      [KBOp.clear, KBOp.add usaStandardsDoc, KBOp.add collegeRecruitingDoc] ∧
    LoadPayload.loaded_documents
      { status := "success"
        message := "SwimBench knowledge base loaded successfully"
        loaded_documents := ["USA Swimming Standards 2024-2028",
                             "College Recruiting Standards"] } =
      ["USA Swimming Standards 2024-2028", "College Recruiting Standards"] := by
  have h := loaded_documents_fixed_labels okOracle []
    { status := "success"
      message := "SwimBench knowledge base loaded successfully"
      loaded_documents := ["USA Swimming Standards 2024-2028",
                           "College Recruiting Standards"] } rfl
  exact ⟨h.2.1, h.1⟩

/-- C9: the declared 500 path of the GET /events handler is dead: the try
body is a list literal and a dict construction that always complete, so
for every store state the handler returns the ok outcome and never an
error response. -/
theorem events_error_branch_dead (st : RelationalStore) :
    (get_available_events st).1 = Except.ok { events := events_list } ∧
    events_body = Except.ok { events := events_list } ∧
    (∀ e : HTTPException, (get_available_events st).1 ≠ Except.error e) := by
  refine ⟨rfl, rfl, fun e h => ?_⟩
  simp [get_available_events, events_body] at h

/-- C10: every successful POST /loadknowledge invocation submits exactly
two documents to the knowledge base, always in the same order — the USA
Swimming motivational standards first, the college recruiting standards
second — each with its fixed name, fixed remote URL and fixed metadata
mapping. -/
theorem two_fixed_documents_submitted (o : KBOracle) (kb0 : List Document)
    (p : LoadPayload) (h : (load_knowledge o kb0).1 = Except.ok p) :
    (load_knowledge o kb0).2.2 =
      [KBOp.clear, KBOp.add usaStandardsDoc, KBOp.add collegeRecruitingDoc] ∧
    ((load_knowledge o kb0).2.2.filter
      (fun op => match op with | KBOp.add _ => true | KBOp.clear => false)).length = 2 ∧
    usaStandardsDoc =
      { name := "USA Swimming Motivational Time Standards 2024-2028"
        url := "https://websitedevsa.blob.core.windows.net/sitefinity/docs/default-source/timesdocuments/time-standards/2025/2028-motivational-standards-age-group.pdf"
        metadata := [("user_tag", "USA Swimming Standards"), ("content_type", "standards"),
                     ("source", "PDF"), ("year", "2024-2028")] } ∧
    collegeRecruitingDoc =
      { name := "College Swimming Recruiting Standards"
        url := "https://www.ncsasports.org/mens-swimming/college-swimming-recruiting-times"
        metadata := [("user_tag", "College Recruiting"), ("content_type", "recruiting"),
                     ("source", "NCSA")] } := by
  rcases hc : o.clearResult with e | u
  · simp [load_knowledge, hc] at h
  · rcases ha : o.addResult usaStandardsDoc with e | u2
    · simp [load_knowledge, hc, ha] at h
    · rcases hb : o.addResult collegeRecruitingDoc with e | u3
      · simp [load_knowledge, hc, ha, hb] at h
      · refine ⟨by simp [load_knowledge, hc, ha, hb], ?_, rfl, rfl⟩
        simp [load_knowledge, hc, ha, hb, List.filter]

theorem two_fixed_documents_submitted_witness :
    (load_knowledge okOracle []).2.2 =
      [KBOp.clear, KBOp.add usaStandardsDoc, KBOp.add collegeRecruitingDoc] ∧
    ((load_knowledge okOracle []).2.2.filter
      (fun op => match op with | KBOp.add _ => true | KBOp.clear => false)).length = 2 := by
  have h := two_fixed_documents_submitted okOracle []
    { status := "success"
      message := "SwimBench knowledge base loaded successfully"
      loaded_documents := ["USA Swimming Standards 2024-2028",
                           "College Recruiting Standards"] } rfl
  exact ⟨h.1, h.2.1⟩

end SwimBench
